import Mathlib

/-!
Verification of the serialization layer of the analytics data API
(`analytics_data_api/v0/serializers.py` and `analytics_data_api/v0/apps.py`).

The serializers are Django REST Framework (DRF 3) serializers.  The embedding
models an input row field as a `Cell`: the attribute can be absent from the
row, present with an explicit null, or present with a value.  DRF 3 attribute
lookup (`Field.get_attribute` composed with `Serializer.to_representation`)
behaves as follows during serialization:
  * if the attribute is absent and the field declares a `default`, the default
    is used;
  * if the attribute is absent and the field is required with no default,
    serialization of the row fails;
  * if the attribute is present, its value is used as-is; a `None` value is
    rendered as JSON null without invoking the field's value conversion.
Timestamps are modelled as abstract tokens (`Nat`); the configured date /
datetime format strings are modelled as an injected formatting function, as
the spec treats them as configuration inputs.
-/

/-- State of one attribute of an input row: absent from the row, present as an
explicit null (Python `None`), or present with a value. -/
inductive Cell (α : Type) where
  | absent
  | null
  | val (a : α)
deriving DecidableEq, Repr

/-- DRF attribute lookup for a declared field carrying a `default`: the default
is substituted only when the attribute is absent; a present null stays null
(`none` in the result means JSON null). -/
def attrOrDefault {α : Type} (c : Cell α) (dflt : α) : Option α :=
  match c with
  | .absent => some dflt
  | .null => none
  | .val a => some a

/-- DRF attribute lookup for a required field with no default: an absent
attribute fails the whole serialization (outer `none`); a present null is
rendered as JSON null (inner `none`). -/
def attrRequired {α : Type} (c : Cell α) : Option (Option α) :=
  match c with
  | .absent => none
  | .null => some none
  | .val a => some (some a)

/-- Input row for `ProblemSerializer` (fields as declared in the source:
`module_id`, `total_submissions`, `correct_submissions`, `part_ids`,
`created`). -/
structure ProblemRow where
  module_id : Cell String
  total_submissions : Cell Int
  correct_submissions : Cell Int
  part_ids : Cell String
  created : Cell Nat
deriving DecidableEq, Repr

/-- Serialized output of `ProblemSerializer`; `none` in a field is JSON null. -/
structure ProblemOut where
  module_id : Option String
  total_submissions : Option Int
  correct_submissions : Option Int
  part_ids : Option String
  created : Option String
deriving DecidableEq, Repr

/-- `ProblemSerializer`: `module_id` and `part_ids` are required `CharField`s,
`total_submissions` and `correct_submissions` are `IntegerField(default=0)`,
`created` is a `DateTimeField` rendered with the configured datetime format
`fmt`.  Returns `none` when a required attribute is absent. -/
def serializeProblem (fmt : Nat → String) (r : ProblemRow) : Option ProblemOut :=
  match attrRequired r.module_id, attrRequired r.part_ids, attrRequired r.created with
  | some mid, some pid, some cr =>
      some ⟨mid, attrOrDefault r.total_submissions 0, attrOrDefault r.correct_submissions 0,
            pid, cr.map fmt⟩
  | _, _, _ => none

/-- C1, counterexample: on the claim's own scenario row
`{module_id: "m1", total_submissions: null, correct_submissions: 3, part_ids: "p1", created: 5}`
the serializer outputs `total_submissions = null`, not the claimed `0`:
`IntegerField(default=0)` substitutes the default only for an absent
attribute, while an explicit null is passed through. -/
theorem C1_counterexample :
    (serializeProblem (fun t => toString t)
        ⟨.val "m1", .null, .val 3, .val "p1", .val 5⟩).map ProblemOut.total_submissions
      = some none
    ∧ serializeProblem (fun t => toString t)
        ⟨.val "m1", .null, .val 3, .val "p1", .val 5⟩
      ≠ some ⟨some "m1", some 0, some 3, some "p1", some "5"⟩ := by
  constructor
  · rfl
  · decide

/-- C1 (amended): for every input row to the problem serializer in which a
numeric field declared with a default (`total_submissions` or
`correct_submissions`) is absent, the serialized output contains the
documented default 0 for that field; when such a field is present but null,
the output preserves the null. -/
theorem C1_theorem (fmt : Nat → String) (r : ProblemRow) (o : ProblemOut)
    (h : serializeProblem fmt r = some o) :
    (r.total_submissions = .absent → o.total_submissions = some 0)
    ∧ (r.correct_submissions = .absent → o.correct_submissions = some 0)
    ∧ (r.total_submissions = .null → o.total_submissions = none)
    ∧ (r.correct_submissions = .null → o.correct_submissions = none) := by
  unfold serializeProblem at h
  rcases hm : attrRequired r.module_id with _ | mid <;> rw [hm] at h <;>
    rcases hp : attrRequired r.part_ids with _ | pid <;> rw [hp] at h <;>
      rcases hc : attrRequired r.created with _ | cr <;> rw [hc] at h <;>
        simp only [] at h
  all_goals try exact Option.noConfusion h
  injection h with h
  subst h
  exact ⟨fun ht => by simp [attrOrDefault, ht], fun hc2 => by simp [attrOrDefault, hc2],
    fun ht => by simp [attrOrDefault, ht], fun hc2 => by simp [attrOrDefault, hc2]⟩

/-- C1 witness: the amended theorem applied at a concrete row in which both
defaulted fields are absent. -/
theorem C1_witness :
    (ProblemRow.total_submissions ⟨.val "m1", .absent, .absent, .val "p1", .val 5⟩ = .absent →
      ProblemOut.total_submissions ⟨some "m1", some 0, some 0, some "p1", some "5"⟩ = some 0)
    ∧ (ProblemRow.correct_submissions ⟨.val "m1", .absent, .absent, .val "p1", .val 5⟩ = .absent →
      ProblemOut.correct_submissions ⟨some "m1", some 0, some 0, some "p1", some "5"⟩ = some 0)
    ∧ (ProblemRow.total_submissions ⟨.val "m1", .absent, .absent, .val "p1", .val 5⟩ = .null →
      ProblemOut.total_submissions ⟨some "m1", some 0, some 0, some "p1", some "5"⟩ = none)
    ∧ (ProblemRow.correct_submissions ⟨.val "m1", .absent, .absent, .val "p1", .val 5⟩ = .null →
      ProblemOut.correct_submissions ⟨some "m1", some 0, some 0, some "p1", some "5"⟩ = none) :=
  C1_theorem (fun t => toString t) ⟨.val "m1", .absent, .absent, .val "p1", .val 5⟩
    ⟨some "m1", some 0, some 0, some "p1", some "5"⟩ (by rfl)

/-- Python `str.lower()`: each character lower-cased. -/
def pyLower (s : String) : String := ⟨s.data.map Char.toLower⟩

/-- `CourseActivityByWeekSerializer.get_activity_type`: lower-case the row's
activity type and change `active` to `any`. -/
def get_activity_type (activity_type : String) : String :=
  let a := pyLower activity_type
  if a = "active" then "any" else a

/-- C3: the serialized activity type is the lower-cased input with `active`
replaced by `any`: inputs `Active`, `ACTIVE` and `active` all serialize to
`any`, and any input whose lower-casing is not `active` serializes to its
lower-casing. -/
theorem C3_theorem :
    get_activity_type "Active" = "any"
    ∧ get_activity_type "ACTIVE" = "any"
    ∧ get_activity_type "active" = "any"
    ∧ ∀ X : String, pyLower X ≠ "active" → get_activity_type X = pyLower X := by
  refine ⟨by decide, by decide, by decide, fun X hX => ?_⟩
  simp [get_activity_type, hX]

/-- C3 witness: the general clause applied at the concrete input
`Played_Video`. -/
theorem C3_witness : get_activity_type "Played_Video" = pyLower "Played_Video" :=
  C3_theorem.2.2.2 "Played_Video" (by decide)

/-- A JSON-like value occurring in a serialized record. -/
inductive JVal where
  | null
  | int (n : Int)
  | str (s : String)
  | bool (b : Bool)
deriving DecidableEq, Repr

/-- Python `dict.get(k, dflt)`: the stored value when the key is present (even
when that value is null), else the supplied default. -/
def pyDictGet (d : List (String × JVal)) (k : String) (dflt : JVal) : JVal :=
  match d.lookup k with
  | some v => v
  | none => dflt

/-- The enrollment modes supported by the API
(`ENROLLMENT_MODES` in the source; the `enrollment_modes` constants module is
not part of the sources, but the mode names are fixed by the serializer's
method fields `get_audit` .. `get_verified`). -/
def ENROLLMENT_MODES : List String :=
  ["audit", "credit", "honor", "professional", "verified"]

/-- `CourseEnrollmentModeDailySerializer.get_audit`: `obj.get('audit', 0)`. -/
def get_audit (obj : List (String × JVal)) : JVal := pyDictGet obj "audit" (.int 0)

/-- `CourseEnrollmentModeDailySerializer.get_honor`: `obj.get('honor', 0)`. -/
def get_honor (obj : List (String × JVal)) : JVal := pyDictGet obj "honor" (.int 0)

/-- `CourseEnrollmentModeDailySerializer.get_credit`: `obj.get('credit', 0)`. -/
def get_credit (obj : List (String × JVal)) : JVal := pyDictGet obj "credit" (.int 0)

/-- `CourseEnrollmentModeDailySerializer.get_professional`:
`obj.get('professional', 0)`. -/
def get_professional (obj : List (String × JVal)) : JVal :=
  pyDictGet obj "professional" (.int 0)

/-- `CourseEnrollmentModeDailySerializer.get_verified`:
`obj.get('verified', 0)`. -/
def get_verified (obj : List (String × JVal)) : JVal := pyDictGet obj "verified" (.int 0)

/-- `CourseEnrollmentModeDailySerializer`: the input is a dict row; the output
fields are those of `Meta.fields`, i.e. `course_id`, `date`, `count`,
`cumulative_count`, `created` (straight attribute lookups, required, so an
absent one fails serialization) followed by one method field per enrollment
mode.  Date formatting of the `date`/`created` values is outside this claim
and the values are carried through as opaque `JVal`s. -/
def serializeCourseEnrollmentModeDaily (obj : List (String × JVal)) :
    Option (List (String × JVal)) :=
  match obj.lookup "course_id", obj.lookup "date", obj.lookup "count",
      obj.lookup "cumulative_count", obj.lookup "created" with
  | some cid, some d, some c, some cc, some cr =>
      some [("course_id", cid), ("date", d), ("count", c), ("cumulative_count", cc),
            ("created", cr),
            ("audit", get_audit obj), ("credit", get_credit obj), ("honor", get_honor obj),
            ("professional", get_professional obj), ("verified", get_verified obj)]
  | _, _, _, _, _ => none

/-- C2: every recognized enrollment mode appears as a field of the serialized
enrollment-by-mode output; the field holds the input's value for that mode
when the mode key is present, and 0 when it is absent. -/
theorem C2_theorem (obj : List (String × JVal)) (out : List (String × JVal))
    (h : serializeCourseEnrollmentModeDaily obj = some out) :
    ∀ m ∈ ENROLLMENT_MODES,
      (∀ v, obj.lookup m = some v → out.lookup m = some v)
      ∧ (obj.lookup m = none → out.lookup m = some (.int 0)) := by
  intro m hm
  unfold serializeCourseEnrollmentModeDaily at h
  rcases h1 : obj.lookup "course_id" with _ | cid <;> rw [h1] at h <;> try exact Option.noConfusion h
  rcases h2 : obj.lookup "date" with _ | d <;> rw [h2] at h <;> try exact Option.noConfusion h
  rcases h3 : obj.lookup "count" with _ | c <;> rw [h3] at h <;> try exact Option.noConfusion h
  rcases h4 : obj.lookup "cumulative_count" with _ | cc <;> rw [h4] at h <;>
    try exact Option.noConfusion h
  rcases h5 : obj.lookup "created" with _ | cr <;> rw [h5] at h <;> try exact Option.noConfusion h
  injection h with h
  subst h
  simp only [ENROLLMENT_MODES, List.mem_cons, List.not_mem_nil, or_false] at hm
  rcases hm with rfl | rfl | rfl | rfl | rfl <;>
    exact ⟨fun v hv => by
        simp [List.lookup, get_audit, get_credit, get_honor, get_professional, get_verified,
          pyDictGet, hv],
      fun hv => by
        simp [List.lookup, get_audit, get_credit, get_honor, get_professional, get_verified,
          pyDictGet, hv]⟩

/-- C2 witness: the theorem applied to a concrete row in which `verified` is
present (with value 7) and `honor` absent. -/
theorem C2_witness :
    ((∀ v, ([("course_id", JVal.str "c"), ("date", JVal.str "d"), ("count", JVal.int 9),
        ("cumulative_count", JVal.int 9), ("created", JVal.str "t"),
        ("verified", JVal.int 7)] : List (String × JVal)).lookup "verified" = some v →
      ([("course_id", JVal.str "c"), ("date", JVal.str "d"), ("count", JVal.int 9),
        ("cumulative_count", JVal.int 9), ("created", JVal.str "t"),
        ("audit", JVal.int 0), ("credit", JVal.int 0), ("honor", JVal.int 0),
        ("professional", JVal.int 0), ("verified", JVal.int 7)] :
          List (String × JVal)).lookup "verified" = some v)
    ∧ (([("course_id", JVal.str "c"), ("date", JVal.str "d"), ("count", JVal.int 9),
        ("cumulative_count", JVal.int 9), ("created", JVal.str "t"),
        ("verified", JVal.int 7)] : List (String × JVal)).lookup "verified" = none →
      ([("course_id", JVal.str "c"), ("date", JVal.str "d"), ("count", JVal.int 9),
        ("cumulative_count", JVal.int 9), ("created", JVal.str "t"),
        ("audit", JVal.int 0), ("credit", JVal.int 0), ("honor", JVal.int 0),
        ("professional", JVal.int 0), ("verified", JVal.int 7)] :
          List (String × JVal)).lookup "verified" = some (.int 0))) :=
  C2_theorem
    [("course_id", JVal.str "c"), ("date", JVal.str "d"), ("count", JVal.int 9),
      ("cumulative_count", JVal.int 9), ("created", JVal.str "t"), ("verified", JVal.int 7)]
    [("course_id", JVal.str "c"), ("date", JVal.str "d"), ("count", JVal.int 9),
      ("cumulative_count", JVal.int 9), ("created", JVal.str "t"),
      ("audit", JVal.int 0), ("credit", JVal.int 0), ("honor", JVal.int 0),
      ("professional", JVal.int 0), ("verified", JVal.int 7)]
    (by rfl) "verified" (by decide)

/-- A `ModuleEngagementMetricRanges` row: one metric, one range type
(`low` / `normal` / `high`), the bucket bounds, and the date range the bucket
was computed over. -/
structure MetricRangeRow where
  metric : String
  range_type : String
  low_value : Int
  high_value : Int
  start_date : Nat
  end_date : Nat
deriving DecidableEq, Repr

/-- Modelled from the spec: the recognized engagement metric names
(`engagement_events.EVENTS`; the constants module is not among the sources).
The spec's glossary lists the countable learner activities: problems
attempted / completed, discussion contributions, videos viewed. -/
def EVENTS : List String :=
  ["discussion_contributions", "problems_attempted", "problems_completed", "videos_viewed"]

/-- `EnagementRangeMetricSerializer._transform_range`:
`[low_value, high_value] if metric_range else None`. -/
def transform_range (metric_range : Option MetricRangeRow) : Option (Int × Int) :=
  match metric_range with
  | some r => some (r.low_value, r.high_value)
  | none => none

/-- The row predicate of `query_set.filter(metric=m, range_type=t)`. -/
def matchesRange (m t : String) (r : MetricRangeRow) : Bool :=
  r.metric == m && r.range_type == t

/-- `query_set.filter(metric=m, range_type=t)`, preserving input order. -/
def filterMetricRange (qs : List MetricRangeRow) (m t : String) : List MetricRangeRow :=
  qs.filter (matchesRange m t)

/-- Output of `EnagementRangeMetricSerializer`: each bucket is either the
`[low, high]` pair or null. -/
structure EngagementRangeOut where
  below_average : Option (Int × Int)
  average : Option (Int × Int)
  above_average : Option (Int × Int)
deriving DecidableEq, Repr

/-- One metric's entry of `CourseLearnerMetadataSerializer.get_engagement_ranges`:
the serializer receives `low_range` / `normal_range` / `high_range` as the
first row of the corresponding filtered query set (`qs[0] if len(qs) else
None`), and `below_average` is the `low` bucket, `average` the `normal` one,
`above_average` the `high` one. -/
def engagementRangeForMetric (qs : List MetricRangeRow) (m : String) : EngagementRangeOut :=
  ⟨transform_range (filterMetricRange qs m "low").head?,
   transform_range (filterMetricRange qs m "normal").head?,
   transform_range (filterMetricRange qs m "high").head?⟩

/-- Output of `get_engagement_ranges`: the formatted date range (taken from the
first row, absent when the collection is empty) plus one entry per recognized
metric. -/
structure EngagementRangesOut where
  date_range : Option (String × String)
  metrics : List (String × EngagementRangeOut)
deriving DecidableEq, Repr

/-- `CourseLearnerMetadataSerializer.get_engagement_ranges` over the row
collection `qs`, with `fmtDate` the configured date format. -/
def get_engagement_ranges (fmtDate : Nat → String) (qs : List MetricRangeRow) :
    EngagementRangesOut :=
  ⟨qs.head?.map (fun r => (fmtDate r.start_date, fmtDate r.end_date)),
   EVENTS.map (fun m => (m, engagementRangeForMetric qs m))⟩

/-- The serialized bucket corresponding to a stored `range_type`
(`low` ↦ `below_average`, `normal` ↦ `average`, `high` ↦ `above_average`). -/
def bucketOf (o : EngagementRangeOut) (t : String) : Option (Int × Int) :=
  if t = "low" then o.below_average
  else if t = "normal" then o.average
  else o.above_average

theorem lookup_map_self {β : Type} (g : String → β) (l : List String) (m : String)
    (hm : m ∈ l) : (l.map (fun a => (a, g a))).lookup m = some (g m) := by
  induction l with
  | nil => cases hm
  | cons a t ih =>
    by_cases hma : m = a
    · subst hma
      simp [List.lookup]
    · have hm' : m ∈ t := by
        rcases List.mem_cons.mp hm with h | h
        · exact absurd h hma
        · exact h
      have hb : (m == a) = false := beq_eq_false_iff_ne.mpr hma
      simp [List.lookup, hb, ih hm']

theorem head?_filter_eq_find? {α : Type} (p : α → Bool) (l : List α) :
    (l.filter p).head? = l.find? p := by
  induction l with
  | nil => rfl
  | cons a t ih =>
    by_cases h : p a
    · simp [List.filter_cons, List.find?_cons, h]
    · simp [List.filter_cons, List.find?_cons, h, ih]

theorem find?_first_match {α : Type} (p : α → Bool) (pre post : List α) (r : α)
    (hr : p r = true) (hpre : ∀ x ∈ pre, p x = false) :
    (pre ++ r :: post).find? p = some r := by
  induction pre with
  | nil => simp [List.find?_cons, hr]
  | cons a t ih =>
    have ha : p a = false := hpre a (by simp)
    rw [List.cons_append]
    simp only [List.find?_cons, ha]
    exact ih (fun x hx => hpre x (by simp [hx]))

theorem find?_no_match {α : Type} (p : α → Bool) (l : List α)
    (h : ∀ x ∈ l, p x = false) : l.find? p = none := by
  induction l with
  | nil => rfl
  | cons a t ih =>
    have ha : p a = false := h a (by simp)
    simp only [List.find?_cons, ha]
    exact ih (fun x hx => h x (by simp [hx]))

/-- C4: for every recognized engagement metric, the range shaper's output has
an entry for that metric even when the collection holds no row for it; in
that case all three buckets are null, and the set of emitted metric keys is
always exactly the recognized metric list. -/
theorem C4_theorem (fmtDate : Nat → String) (qs : List MetricRangeRow) (m : String)
    (hm : m ∈ EVENTS) (hnone : ∀ r ∈ qs, r.metric ≠ m) :
    ((get_engagement_ranges fmtDate qs).metrics.map Prod.fst = EVENTS)
    ∧ (get_engagement_ranges fmtDate qs).metrics.lookup m
        = some ⟨none, none, none⟩ := by
  constructor
  · rfl
  · have hlook := lookup_map_self (fun m' => engagementRangeForMetric qs m') EVENTS m hm
    have hfil : ∀ t, filterMetricRange qs m t = [] := by
      intro t
      refine List.filter_eq_nil_iff.mpr (fun r hr => ?_)
      simp [matchesRange, hnone r hr]
    show (EVENTS.map (fun m' => (m', engagementRangeForMetric qs m'))).lookup m = _
    rw [hlook]
    simp [engagementRangeForMetric, hfil, transform_range]

/-- C4 witness: the theorem applied with a collection holding a single row for
a different metric, at the metric `videos_viewed`. -/
theorem C4_witness :
    ((get_engagement_ranges (fun _ => "") [⟨"problems_attempted", "low", 1, 2, 0, 0⟩]).metrics.map
        Prod.fst = EVENTS)
    ∧ (get_engagement_ranges (fun _ => "")
          [⟨"problems_attempted", "low", 1, 2, 0, 0⟩]).metrics.lookup "videos_viewed"
        = some ⟨none, none, none⟩ :=
  C4_theorem (fun _ => "") [⟨"problems_attempted", "low", 1, 2, 0, 0⟩] "videos_viewed"
    (by decide) (by decide)

/-- C5: for every metric and range type, the shaper serializes the first row
(in input order) matching that metric and range type as the `[low, high]`
pair, ignoring any later matching rows; when no row matches, that bucket is
null. -/
theorem C5_theorem (fmtDate : Nat → String) (qs : List MetricRangeRow) (m t : String)
    (hm : m ∈ EVENTS) (ht : t = "low" ∨ t = "normal" ∨ t = "high") :
    (∀ pre r post, qs = pre ++ r :: post → matchesRange m t r = true →
       (∀ p ∈ pre, matchesRange m t p = false) →
       ((get_engagement_ranges fmtDate qs).metrics.lookup m).map (fun o => bucketOf o t)
         = some (some (r.low_value, r.high_value)))
    ∧ ((∀ p ∈ qs, matchesRange m t p = false) →
       ((get_engagement_ranges fmtDate qs).metrics.lookup m).map (fun o => bucketOf o t)
         = some none) := by
  have hlook := lookup_map_self (fun m' => engagementRangeForMetric qs m') EVENTS m hm
  have hshow : (get_engagement_ranges fmtDate qs).metrics.lookup m
      = some (engagementRangeForMetric qs m) := hlook
  have hbucket : bucketOf (engagementRangeForMetric qs m) t
      = transform_range (qs.find? (matchesRange m t)) := by
    rcases ht with rfl | rfl | rfl <;>
      simp [bucketOf, engagementRangeForMetric, filterMetricRange, head?_filter_eq_find?]
  constructor
  · intro pre r post hqs hr hpre
    rw [hshow]
    show some (bucketOf (engagementRangeForMetric qs m) t) = _
    rw [hbucket, hqs, find?_first_match (matchesRange m t) pre post r hr hpre]
    rfl
  · intro hnone
    rw [hshow]
    show some (bucketOf (engagementRangeForMetric qs m) t) = _
    rw [hbucket, find?_no_match (matchesRange m t) qs hnone]
    rfl

/-- C5 witness: the first-match clause applied with a two-row collection in
which both rows match `problems_attempted` / `low`; the serialized bucket is
the first row's pair. -/
theorem C5_witness :
    ((get_engagement_ranges (fun _ => "")
        [⟨"problems_attempted", "low", 1, 2, 0, 0⟩,
         ⟨"problems_attempted", "low", 5, 9, 0, 0⟩]).metrics.lookup
        "problems_attempted").map (fun o => bucketOf o "low")
      = some (some (1, 2)) :=
  (C5_theorem (fun _ => "")
      [⟨"problems_attempted", "low", 1, 2, 0, 0⟩, ⟨"problems_attempted", "low", 5, 9, 0, 0⟩]
      "problems_attempted" "low" (by decide) (Or.inl rfl)).1
    [] ⟨"problems_attempted", "low", 1, 2, 0, 0⟩ [⟨"problems_attempted", "low", 5, 9, 0, 0⟩]
    rfl (by decide) (by simp)

/-- A search-index result set as handed to the pagination layer: the
`elasticsearch-dsl` search object is lazy, carrying the pending query whose
matching documents are `docs`; calling `execute()` materializes them. -/
inductive SearchResult (δ : Type) where
  | lazy (docs : List δ)
  | executed (docs : List δ)
deriving DecidableEq, Repr

/-- `Search.execute()`: run the pending query, materializing its matching
documents. -/
def SearchResult.execute {δ : Type} : SearchResult δ → SearchResult δ
  | .lazy docs => .executed docs
  | .executed docs => .executed docs

/-- The documents a result set stands for (for a lazy one, those the pending
query would return). -/
def SearchResult.matchingDocs {δ : Type} : SearchResult δ → List δ
  | .lazy docs => docs
  | .executed docs => docs

/-- Modelled from the spec: the base paginator inspects the result set for its
length to report the total count; the lazy search object does not expose a
count without executing (the count is incorrect or erroring, modelled as
`none`), while an executed result reports the number of its documents. -/
def baseCount {δ : Type} : SearchResult δ → Option Nat
  | .lazy _ => none
  | .executed docs => some docs.length

/-- The `Page` object handed to the pagination serializer; its `object_list`
is the search result set. -/
structure Page (δ : Type) where
  object_list : SearchResult δ
deriving DecidableEq, Repr

/-- `ElasticsearchDSLSearchSerializer.__init__`: replaces the page's
`object_list` with the executed query result before delegating to the base
paginator. -/
def elasticsearchDSLSearchSerializerInit {δ : Type} (p : Page δ) : Page δ :=
  ⟨p.object_list.execute⟩

/-- C6: the adapter executes the lazy search result before the base paginator
inspects it, so the reported total count equals the number of matching
documents; without the forced-execution step a lazy result yields no valid
count. -/
theorem C6_theorem {δ : Type} (p : Page δ) :
    baseCount (elasticsearchDSLSearchSerializerInit p).object_list
      = some p.object_list.matchingDocs.length
    ∧ ∀ docs : List δ, baseCount (SearchResult.lazy docs) = none := by
  constructor
  · cases hp : p.object_list <;>
      simp [elasticsearchDSLSearchSerializerInit, SearchResult.execute, baseCount,
        SearchResult.matchingDocs, hp]
  · intro docs
    rfl

/-- The field list of `ProblemResponseAnswerDistributionSerializer.Meta`. -/
def problemResponseAnswerDistributionFields : List String :=
  ["course_id", "module_id", "part_id", "correct", "count", "value_id", "answer_value",
   "problem_display_name", "question_text", "variant", "created"]

/-- The field list of `ProblemFirstLastResponseAnswerDistributionSerializer.Meta`:
the base list plus `first_response_count` and `last_response_count`, then
every field named `count` filtered out. -/
def problemFirstLastResponseAnswerDistributionFields : List String :=
  (problemResponseAnswerDistributionFields
      ++ ["first_response_count", "last_response_count"]).filter (fun field => field ≠ "count")

/-- C7: the first/last serializer's field set is the base distribution field
set with the single counter field `count` excluded by name and the two fields
`first_response_count` and `last_response_count` added; every other base
field is kept unchanged, in order. -/
theorem C7_theorem :
    problemFirstLastResponseAnswerDistributionFields
      = (problemResponseAnswerDistributionFields.filter (fun field => field ≠ "count"))
          ++ ["first_response_count", "last_response_count"]
    ∧ "count" ∉ problemFirstLastResponseAnswerDistributionFields
    ∧ ∀ field ∈ problemResponseAnswerDistributionFields, field ≠ "count" →
        field ∈ problemFirstLastResponseAnswerDistributionFields := by
  refine ⟨by decide, by decide, ?_⟩
  intro field hf hne
  fin_cases hf <;> first | decide | exact absurd rfl hne

/-- C7 witness: the membership clause applied at the base field `variant`. -/
theorem C7_witness : "variant" ∈ problemFirstLastResponseAnswerDistributionFields :=
  C7_theorem.2.2 "variant" (by decide) (by decide)

/-- Encode a nullable string attribute as a JSON value. -/
def jOfOptStr : Option String → JVal
  | some s => .str s
  | none => .null

/-- Encode a nullable integer attribute as a JSON value. -/
def jOfOptInt : Option Int → JVal
  | some n => .int n
  | none => .null

/-- Encode a nullable boolean attribute as a JSON value. -/
def jOfOptBool : Option Bool → JVal
  | some b => .bool b
  | none => .null

/-- A stored `ProblemResponseAnswerDistribution` row (the model fields named
by the serializer's `Meta.fields`); it has no `consolidated_variant`
attribute. -/
structure AnswerDistributionRow where
  course_id : Option String
  module_id : Option String
  part_id : Option String
  correct : Option Bool
  count : Option Int
  value_id : Option String
  answer_value : Option String
  problem_display_name : Option String
  question_text : Option String
  variant : Option Int
  created : Nat
deriving DecidableEq, Repr

/-- A stored `ProblemFirstLastResponseAnswerDistribution` row: the base row's
fields plus the first / last response counters.  The `count` attribute still
exists on the row; the first/last serializer merely excludes it from its
field list. -/
structure FirstLastAnswerDistributionRow where
  course_id : Option String
  module_id : Option String
  part_id : Option String
  correct : Option Bool
  count : Option Int
  value_id : Option String
  answer_value : Option String
  problem_display_name : Option String
  question_text : Option String
  variant : Option Int
  first_response_count : Option Int
  last_response_count : Option Int
  created : Nat
deriving DecidableEq, Repr

/-- `ConsolidatedAnswerDistributionSerializer`: the base distribution fields
followed by the declared `consolidated_variant` `BooleanField`.  The boolean
is not a row attribute: the caller supplies it as part of the input
structure, and the serializer copies it into the output. -/
def serializeConsolidatedAnswerDistribution (fmt : Nat → String)
    (row : AnswerDistributionRow) (consolidated_variant : Bool) : List (String × JVal) :=
  [("course_id", jOfOptStr row.course_id),
   ("module_id", jOfOptStr row.module_id),
   ("part_id", jOfOptStr row.part_id),
   ("correct", jOfOptBool row.correct),
   ("count", jOfOptInt row.count),
   ("value_id", jOfOptStr row.value_id),
   ("answer_value", jOfOptStr row.answer_value),
   ("problem_display_name", jOfOptStr row.problem_display_name),
   ("question_text", jOfOptStr row.question_text),
   ("variant", jOfOptInt row.variant),
   ("created", .str (fmt row.created)),
   ("consolidated_variant", .bool consolidated_variant)]

/-- `ConsolidatedFirstLastAnswerDistributionSerializer`: the first/last field
list (base fields without `count`, plus the two response counters) followed by
the caller-supplied `consolidated_variant`. -/
def serializeConsolidatedFirstLastAnswerDistribution (fmt : Nat → String)
    (row : FirstLastAnswerDistributionRow) (consolidated_variant : Bool) :
    List (String × JVal) :=
  [("course_id", jOfOptStr row.course_id),
   ("module_id", jOfOptStr row.module_id),
   ("part_id", jOfOptStr row.part_id),
   ("correct", jOfOptBool row.correct),
   ("value_id", jOfOptStr row.value_id),
   ("answer_value", jOfOptStr row.answer_value),
   ("problem_display_name", jOfOptStr row.problem_display_name),
   ("question_text", jOfOptStr row.question_text),
   ("variant", jOfOptInt row.variant),
   ("created", .str (fmt row.created)),
   ("first_response_count", jOfOptInt row.first_response_count),
   ("last_response_count", jOfOptInt row.last_response_count),
   ("consolidated_variant", .bool consolidated_variant)]

/-- C8: both consolidated-variant serializers always emit the
`consolidated_variant` boolean field, and its value is exactly the
caller-supplied flag (the stored rows carry no such attribute); the remaining
output keys are exactly the respective `Meta.fields` lists. -/
theorem C8_theorem (fmt : Nat → String) (row : AnswerDistributionRow)
    (flRow : FirstLastAnswerDistributionRow) (b : Bool) :
    (serializeConsolidatedAnswerDistribution fmt row b).lookup "consolidated_variant"
      = some (.bool b)
    ∧ (serializeConsolidatedFirstLastAnswerDistribution fmt flRow b).lookup
        "consolidated_variant" = some (.bool b)
    ∧ (serializeConsolidatedAnswerDistribution fmt row b).map Prod.fst
      = problemResponseAnswerDistributionFields ++ ["consolidated_variant"]
    ∧ (serializeConsolidatedFirstLastAnswerDistribution fmt flRow b).map Prod.fst
      = problemFirstLastResponseAnswerDistributionFields ++ ["consolidated_variant"] :=
  ⟨rfl, rfl, rfl, rfl⟩

/-- A value of the `connection_params` dict built by `ApiAppConfig.ready`:
the host list, the transport class (abstracted to its fully-qualified name as
resolved by `load_fully_qualified_definition`), or a credential string. -/
inductive ConnParam where
  | hosts (hs : List String)
  | cls (name : String)
  | str (s : String)
deriving DecidableEq, Repr

/-- The Django settings consumed by `ApiAppConfig.ready`; `none` models an
unset (falsy / `None`) setting. -/
structure ESSettings where
  ELASTICSEARCH_LEARNERS_HOST : Option String
  ELASTICSEARCH_CONNECTION_CLASS : Option String
  ELASTICSEARCH_AWS_ACCESS_KEY_ID : Option String
  ELASTICSEARCH_AWS_SECRET_ACCESS_KEY : Option String
  ELASTICSEARCH_CONNECTION_DEFAULT_REGION : Option String
deriving DecidableEq, Repr

/-- `ApiAppConfig.ready`: when no learners host is configured nothing happens
(`none`, no connection attempt); otherwise the `connection_params` dict is
assembled (hosts, the transport class when configured, the three AWS
settings) and every entry whose value is `None` is removed before
`create_connection` is called with the remaining parameters (`some params`
models the one connection created with exactly those parameters). -/
def apiAppConfigReady (s : ESSettings) : Option (List (String × ConnParam)) :=
  match s.ELASTICSEARCH_LEARNERS_HOST with
  | none => none
  | some host =>
      let connection_params : List (String × Option ConnParam) :=
        [("hosts", some (.hosts [host]))]
        ++ (match s.ELASTICSEARCH_CONNECTION_CLASS with
            | some c => [("connection_class", some (.cls c))]
            | none => [])
        ++ [("aws_access_key_id", s.ELASTICSEARCH_AWS_ACCESS_KEY_ID.map .str),
            ("aws_secret_access_key", s.ELASTICSEARCH_AWS_SECRET_ACCESS_KEY.map .str),
            ("region", s.ELASTICSEARCH_CONNECTION_DEFAULT_REGION.map .str)]
      some (connection_params.filterMap (fun kv => kv.2.map (fun v => (kv.1, v))))

/-- C9: with no search-index host configured the bootstrap makes no connection
attempt; with a host configured, each optional parameter is present in the
final parameter set exactly when its setting is set (so an unset setting never
reaches the connection as a null), and the host list is always passed. -/
theorem C9_theorem (s : ESSettings) :
    (s.ELASTICSEARCH_LEARNERS_HOST = none → apiAppConfigReady s = none)
    ∧ ∀ host, s.ELASTICSEARCH_LEARNERS_HOST = some host →
        (apiAppConfigReady s).map (fun ps => ps.lookup "hosts")
          = some (some (.hosts [host]))
        ∧ (apiAppConfigReady s).map (fun ps => ps.lookup "connection_class")
          = some (s.ELASTICSEARCH_CONNECTION_CLASS.map ConnParam.cls)
        ∧ (apiAppConfigReady s).map (fun ps => ps.lookup "aws_access_key_id")
          = some (s.ELASTICSEARCH_AWS_ACCESS_KEY_ID.map ConnParam.str)
        ∧ (apiAppConfigReady s).map (fun ps => ps.lookup "aws_secret_access_key")
          = some (s.ELASTICSEARCH_AWS_SECRET_ACCESS_KEY.map ConnParam.str)
        ∧ (apiAppConfigReady s).map (fun ps => ps.lookup "region")
          = some (s.ELASTICSEARCH_CONNECTION_DEFAULT_REGION.map ConnParam.str) := by
  obtain ⟨h, c, ak, sk, rg⟩ := s
  constructor
  · intro hn
    cases hn
    rfl
  · intro host hh
    cases hh
    rcases c with _ | cv <;> rcases ak with _ | akv <;> rcases sk with _ | skv <;>
      rcases rg with _ | rgv <;> exact ⟨rfl, rfl, rfl, rfl, rfl⟩

/-- C9 witness: the theorem applied at a configuration with a host, a
transport class and a region set, and both AWS credentials unset. -/
theorem C9_witness :
    (apiAppConfigReady ⟨some "http://es:9200", some "custom.Transport", none, none,
        some "us-east-1"⟩).map (fun ps => ps.lookup "hosts")
      = some (some (.hosts ["http://es:9200"]))
    ∧ (apiAppConfigReady ⟨some "http://es:9200", some "custom.Transport", none, none,
        some "us-east-1"⟩).map (fun ps => ps.lookup "connection_class")
      = some ((some "custom.Transport").map ConnParam.cls)
    ∧ (apiAppConfigReady ⟨some "http://es:9200", some "custom.Transport", none, none,
        some "us-east-1"⟩).map (fun ps => ps.lookup "aws_access_key_id")
      = some ((none : Option String).map ConnParam.str)
    ∧ (apiAppConfigReady ⟨some "http://es:9200", some "custom.Transport", none, none,
        some "us-east-1"⟩).map (fun ps => ps.lookup "aws_secret_access_key")
      = some ((none : Option String).map ConnParam.str)
    ∧ (apiAppConfigReady ⟨some "http://es:9200", some "custom.Transport", none, none,
        some "us-east-1"⟩).map (fun ps => ps.lookup "region")
      = some ((some "us-east-1").map ConnParam.str) :=
  (C9_theorem ⟨some "http://es:9200", some "custom.Transport", none, none,
      some "us-east-1"⟩).2 "http://es:9200" rfl

/-- Python `getattr(obj, field, None)`: `None` both when the attribute is
absent and when it is stored as `None`. -/
def getattrOrNone {α : Type} (c : Cell α) : Option α :=
  match c with
  | .absent => none
  | .null => none
  | .val a => some a

/-- `DefaultIfNoneMixin.default_if_none`:
`value if value is not None else default`. -/
def default_if_none {α : Type} (value : Option α) (dflt : α) : α :=
  match value with
  | some v => v
  | none => dflt

/-- The engagement attributes of a learner row as read by
`LearnerSerializer.get_engagements`; `problem_attempts_per_completed` is a
ratio. -/
structure LearnerEngagementRow where
  discussion_contributions : Cell Int
  problems_attempted : Cell Int
  problems_completed : Cell Int
  videos_viewed : Cell Int
  problem_attempts_per_completed : Cell Rat
deriving DecidableEq, Repr

/-- The `engagements` sub-object produced by `get_engagements`. -/
structure EngagementsOut where
  discussion_contributions : Int
  problems_attempted : Int
  problems_completed : Int
  videos_viewed : Int
  problem_attempts_per_completed : Option Rat
deriving DecidableEq, Repr

/-- `LearnerSerializer.get_engagements`: the four count fields go through
`default_if_none(getattr(obj, field, None), 0)`; the ratio is
`getattr(obj, 'problem_attempts_per_completed', None)` with no default. -/
def get_engagements (obj : LearnerEngagementRow) : EngagementsOut :=
  ⟨default_if_none (getattrOrNone obj.discussion_contributions) 0,
   default_if_none (getattrOrNone obj.problems_attempted) 0,
   default_if_none (getattrOrNone obj.problems_completed) 0,
   default_if_none (getattrOrNone obj.videos_viewed) 0,
   getattrOrNone obj.problem_attempts_per_completed⟩

/-- C10: in the `engagements` sub-object, the four count fields default to 0
when the source attribute is absent or null, while
`problem_attempts_per_completed` preserves null (and otherwise passes the
stored ratio through, never a default). -/
theorem C10_theorem (obj : LearnerEngagementRow) :
    ((obj.discussion_contributions = .absent ∨ obj.discussion_contributions = .null) →
      (get_engagements obj).discussion_contributions = 0)
    ∧ ((obj.problems_attempted = .absent ∨ obj.problems_attempted = .null) →
      (get_engagements obj).problems_attempted = 0)
    ∧ ((obj.problems_completed = .absent ∨ obj.problems_completed = .null) →
      (get_engagements obj).problems_completed = 0)
    ∧ ((obj.videos_viewed = .absent ∨ obj.videos_viewed = .null) →
      (get_engagements obj).videos_viewed = 0)
    ∧ ((obj.problem_attempts_per_completed = .absent
        ∨ obj.problem_attempts_per_completed = .null) →
      (get_engagements obj).problem_attempts_per_completed = none)
    ∧ (∀ v, obj.problem_attempts_per_completed = .val v →
      (get_engagements obj).problem_attempts_per_completed = some v) := by
  refine ⟨fun h => ?_, fun h => ?_, fun h => ?_, fun h => ?_, fun h => ?_, fun v hv => ?_⟩
  · rcases h with h | h <;> simp [get_engagements, getattrOrNone, default_if_none, h]
  · rcases h with h | h <;> simp [get_engagements, getattrOrNone, default_if_none, h]
  · rcases h with h | h <;> simp [get_engagements, getattrOrNone, default_if_none, h]
  · rcases h with h | h <;> simp [get_engagements, getattrOrNone, default_if_none, h]
  · rcases h with h | h <;> simp [get_engagements, getattrOrNone, h]
  · simp [get_engagements, getattrOrNone, hv]

/-- C10 witness: the null-preservation clause applied at a row whose ratio
attribute is explicitly null (the count fields absent or null default to 0 by
the other clauses). -/
theorem C10_witness :
    (get_engagements ⟨.null, .absent, .null, .absent, .null⟩).problem_attempts_per_completed
      = none :=
  (C10_theorem ⟨.null, .absent, .null, .absent, .null⟩).2.2.2.2.1 (Or.inr rfl)
